import Mathlib

/-!
# Verification of the sensor control core of the ov6211 / ox03c10 / ox03j10 drivers

Shallow embedding of the sensor drivers in
`drivers/media/i2c/{ov6211,ox03c10,ox03j10}.c`: the register transport,
the register-program runner, mode selection, the power/streaming state
machine, the control propagation engine and the identity check, together
with theorems settling the specification claims about them.

Machine integers are modelled as `Nat`/`Int` with explicit reductions
modulo `2 ^ w` where the C code can wrap (the kernel is compiled with
`-fno-strict-overflow`, so signed overflow wraps).
-/

namespace SensorDrivers

/-- Linux errno values used by the drivers (returned negated, as in C). -/
def EINVAL : Int := 22

/-- errno for an I/O error reported by the bus. -/
def EIO : Int := 5

/-- errno for a failed chip identification. -/
def ENODEV : Int := 19

/-- One entry of a register program (`struct regval`): a 16-bit register
address and a register value (`u8` for ov6211, `u16` for the ox chips). -/
structure regval where
  addr : Nat
  val : Nat
deriving DecidableEq

/-- `REG_NULL`: the sentinel address terminating a register program. -/
def REG_NULL : Nat := 0xFFFF

/-- `REG_DELAY`: the sentinel address encoding an inline delay. -/
def REG_DELAY : Nat := 0xFFFE

/-- The four bytes of `cpu_to_be32 val`, most significant first. -/
def beBytes4 (val : Nat) : List Nat :=
  [val / 2 ^ 24 % 256, val / 2 ^ 16 % 256, val / 2 ^ 8 % 256, val % 256]

/-- The buffer a `write_reg` hands to `i2c_master_send`: the register
address as two big-endian bytes followed by the low `len` bytes of the
big-endian 32-bit value (`buf[0] = reg >> 8; buf[1] = reg & 0xff;`
then bytes `4 - len .. 3` of `cpu_to_be32(val)`). -/
def wrBuf (reg len val : Nat) : List Nat :=
  [reg / 256 % 256, reg % 256] ++ (beBytes4 val).drop (4 - len)

/-- Observable bus and timing behaviour of the driver core:
a single addressed write transaction (`i2c_master_send` of `bytes`),
a two-message addressed read (`i2c_transfer`, address write plus
`len`-byte read at `reg`), or a jittered sleep (`usleep_range lo hi`). -/
inductive BusEvent where
  | send (bytes : List Nat)
  | xfer (reg len : Nat)
  | sleep (lo hi : Nat)
deriving DecidableEq

/-- Whether a bus event is a sleep. -/
def BusEvent.isSleepEvent : BusEvent → Bool
  | .sleep _ _ => true
  | _ => false

/-- A bus send oracle: whether `i2c_master_send` transmits a given buffer
completely (the C code treats a short count as failure). -/
def SendOk := List Nat → Bool

/-- The always-successful bus send oracle. -/
def allOk : SendOk := fun _ => true

/-- A bus read oracle: the value a `len`-byte read at address `reg`
yields, or `none` when `i2c_transfer` does not report 2 messages. -/
def ReadBus := Nat → Nat → Option Nat

/-- `ov6211_write_reg client reg len val`: rejects `len > 4` with
`-EINVAL` before any bus activity (`len = 0` is NOT rejected), otherwise
performs one `i2c_master_send` of the address bytes followed by the low
`len` value bytes.  The result carries the transmitted buffer. -/
def ov6211_write_reg (reg len val : Nat) : Except Int (List Nat) :=
  if len > 4 then .error (-EINVAL)
  else .ok (wrBuf reg len val)

/-- `ov6211_read_reg client reg len val`: rejects `len > 4 || !len` with
`-EINVAL` before any bus activity; otherwise issues an address write and
a `len`-byte read, assembling the bytes big-endian into the low-order
bytes of a zeroed 32-bit accumulator (hence the reduction mod
`2 ^ (8 * len)`); `- EIO` when the transfer does not complete. -/
def ov6211_read_reg (bus : ReadBus) (reg len : Nat) : Except Int Nat :=
  if len > 4 ∨ len = 0 then .error (-EINVAL)
  else
    match bus reg len with
    | none => .error (- EIO)
    | some v => .ok (v % 2 ^ (8 * len))

/-- `ox03j10_write_reg`: same body as `ov6211_write_reg`. -/
def ox03j10_write_reg (reg len val : Nat) : Except Int (List Nat) :=
  if len > 4 then .error (-EINVAL)
  else .ok (wrBuf reg len val)

/-- `ox03j10_read_reg`: same body as `ov6211_read_reg`. -/
def ox03j10_read_reg (bus : ReadBus) (reg len : Nat) : Except Int Nat :=
  if len > 4 ∨ len = 0 then .error (-EINVAL)
  else
    match bus reg len with
    | none => .error (- EIO)
    | some v => .ok (v % 2 ^ (8 * len))

/-- `ox03c10_write_reg`: same body as `ov6211_write_reg`. -/
def ox03c10_write_reg (reg len val : Nat) : Except Int (List Nat) :=
  if len > 4 then .error (-EINVAL)
  else .ok (wrBuf reg len val)

/-- `ox03c10_read_reg`: same body as `ov6211_read_reg`. -/
def ox03c10_read_reg (bus : ReadBus) (reg len : Nat) : Except Int Nat :=
  if len > 4 ∨ len = 0 then .error (-EINVAL)
  else
    match bus reg len with
    | none => .error (- EIO)
    | some v => .ok (v % 2 ^ (8 * len))

/-- `ov6211_write_array client regs`: runs the register program with
1-byte writes until `REG_NULL` or the first error.  NOTE: this driver
has no `REG_DELAY` branch — a delay-sentinel entry is written to the bus
like any other register.  Returns the emitted bus events and the final
`ret`. -/
def ov6211_write_array (busOk : SendOk) : List regval → List BusEvent × Int
  | [] => ([], 0)
  | r :: regs =>
    if r.addr = REG_NULL then ([], 0)
    else
      let buf := wrBuf r.addr 1 r.val
      if busOk buf then
        let rest := ov6211_write_array busOk regs
        (.send buf :: rest.1, rest.2)
      else ([.send buf], - EIO)

/-- `ox03j10_write_array client regs`: as `ov6211_write_array`, but a
`REG_DELAY` entry performs `usleep_range(val, val * 2)` (microseconds)
instead of a bus write and execution continues with the next entry. -/
def ox03j10_write_array (busOk : SendOk) : List regval → List BusEvent × Int
  | [] => ([], 0)
  | r :: regs =>
    if r.addr = REG_NULL then ([], 0)
    else if r.addr = REG_DELAY then
      let rest := ox03j10_write_array busOk regs
      (.sleep r.val (r.val * 2) :: rest.1, rest.2)
    else
      let buf := wrBuf r.addr 1 r.val
      if busOk buf then
        let rest := ox03j10_write_array busOk regs
        (.send buf :: rest.1, rest.2)
      else ([.send buf], - EIO)

/-- `ox03c10_write_array client regs`: as `ov6211_write_array`, but a
`REG_DELAY` entry performs
`usleep_range(val * 1000, val * 1000 + 1000)` (value in milliseconds)
instead of a bus write and execution continues with the next entry. -/
def ox03c10_write_array (busOk : SendOk) : List regval → List BusEvent × Int
  | [] => ([], 0)
  | r :: regs =>
    if r.addr = REG_NULL then ([], 0)
    else if r.addr = REG_DELAY then
      let rest := ox03c10_write_array busOk regs
      (.sleep (r.val * 1000) (r.val * 1000 + 1000) :: rest.1, rest.2)
    else
      let buf := wrBuf r.addr 1 r.val
      if busOk buf then
        let rest := ox03c10_write_array busOk regs
        (.send buf :: rest.1, rest.2)
      else ([.send buf], - EIO)

/-- A register program that is fully transmitted returns `ret = 0`. -/
theorem write_array_allOk_ret (regs : List regval) :
    (ov6211_write_array allOk regs).2 = 0 := by
  induction regs with
  | nil => rfl
  | cons r regs ih =>
    by_cases h : r.addr = REG_NULL <;>
      simp [ov6211_write_array, h, allOk, ih]

/-- C4 (counterexample): in `ov6211_write_array` a delay-sentinel op does
NOT cause a sleep — the op `{0xFFFE, 0x05}` is transmitted as an ordinary
1-byte register write to address `0xFFFE`, and no sleep event occurs. -/
theorem C4_ov6211_delay_is_a_write :
    (ov6211_write_array allOk [⟨0xFFFE, 0x05⟩]).1 = [.send [0xFF, 0xFE, 0x05]] ∧
    ((ov6211_write_array allOk [⟨0xFFFE, 0x05⟩]).1.all
      fun e => !e.isSleepEvent) = true := by
  constructor
  · rfl
  · rfl

/-- C4 (amended): in `ox03j10_write_array` a delay-sentinel op sleeps for
`[val, 2 * val]` microseconds instead of writing, and execution continues
with the next op; in `ox03c10_write_array` it sleeps for
`[val * 1000, val * 1000 + 1000]` microseconds (value in milliseconds),
which lies within `[nominal, 2 * nominal]` whenever `1 ≤ val`, and
execution continues; in `ov6211_write_array` the delay sentinel is not
special-cased and is emitted as an ordinary 1-byte bus write. -/
theorem C4_delay_sentinel (busOk : SendOk) (v : Nat) (rest : List regval) :
    (ox03j10_write_array busOk (⟨REG_DELAY, v⟩ :: rest) =
      (.sleep v (v * 2) :: (ox03j10_write_array busOk rest).1,
        (ox03j10_write_array busOk rest).2)) ∧
    (ox03c10_write_array busOk (⟨REG_DELAY, v⟩ :: rest) =
      (.sleep (v * 1000) (v * 1000 + 1000) :: (ox03c10_write_array busOk rest).1,
        (ox03c10_write_array busOk rest).2)) ∧
    (1 ≤ v → v * 1000 + 1000 ≤ 2 * (v * 1000)) ∧
    (ov6211_write_array busOk (⟨REG_DELAY, v⟩ :: rest)).1.head? =
      some (.send (wrBuf REG_DELAY 1 v)) := by
  refine ⟨?_, ?_, ?_, ?_⟩
  · simp [ox03j10_write_array, REG_DELAY, REG_NULL]
  · simp [ox03c10_write_array, REG_DELAY, REG_NULL]
  · intro hv; omega
  · simp only [REG_DELAY]
    by_cases h : busOk (wrBuf 65534 1 v) <;>
      simp [ov6211_write_array, REG_NULL, h]

/-- C4 (witness): the amended delay-sentinel behaviour at the concrete
op `{0xFFFE, 0x02}` followed by the empty tail. -/
theorem C4_delay_sentinel_witness :
    (ox03j10_write_array allOk [⟨REG_DELAY, 2⟩] = ([.sleep 2 4], 0)) ∧
    (ox03c10_write_array allOk [⟨REG_DELAY, 2⟩] = ([.sleep 2000 3000], 0)) ∧
    (2 * 1000 + 1000 ≤ 2 * (2 * 1000)) ∧
    (ov6211_write_array allOk [⟨REG_DELAY, 2⟩]).1.head? =
      some (.send (wrBuf REG_DELAY 1 2)) := by
  have h := C4_delay_sentinel allOk 2 []
  exact ⟨by rw [h.1]; rfl, by rw [h.2.1]; rfl, h.2.2.1 (by decide), h.2.2.2⟩

/-- C5 (counterexample): a width-0 write is NOT rejected with the
invalid-width error: `ov6211_write_reg` with `len = 0` attempts a 2-byte
address-only bus transaction and reports success. -/
theorem C5_width_zero_write_not_rejected :
    ov6211_write_reg 0x3500 0 0 = .ok [0x35, 0x00] ∧
    ov6211_write_reg 0x3500 0 0 ≠ .error (-EINVAL) := by
  constructor
  · rfl
  · intro h
    simp [ov6211_write_reg, wrBuf, beBytes4] at h

/-- C5 (amended): in all three drivers, a read with width `> 4` or `= 0`
is rejected with `-EINVAL` before any bus transaction, and a write with
width `> 4` is likewise rejected; but a write with width `0` is not
rejected — it attempts an address-only 2-byte bus transaction and
returns success. -/
theorem C5_width_validation (bus : ReadBus) (reg len val : Nat) :
    (4 < len →
      ov6211_write_reg reg len val = .error (-EINVAL) ∧
      ox03j10_write_reg reg len val = .error (-EINVAL) ∧
      ox03c10_write_reg reg len val = .error (-EINVAL) ∧
      ov6211_read_reg bus reg len = .error (-EINVAL) ∧
      ox03j10_read_reg bus reg len = .error (-EINVAL) ∧
      ox03c10_read_reg bus reg len = .error (-EINVAL)) ∧
    (len = 0 →
      ov6211_read_reg bus reg len = .error (-EINVAL) ∧
      ox03j10_read_reg bus reg len = .error (-EINVAL) ∧
      ox03c10_read_reg bus reg len = .error (-EINVAL)) ∧
    ov6211_write_reg reg 0 val = .ok [reg / 256 % 256, reg % 256] := by
  refine ⟨fun h => ?_, fun h => ?_, ?_⟩
  · simp [ov6211_write_reg, ox03j10_write_reg, ox03c10_write_reg,
      ov6211_read_reg, ox03j10_read_reg, ox03c10_read_reg, h,
      Nat.lt_asymm h]
  · subst h
    simp [ov6211_read_reg, ox03j10_read_reg, ox03c10_read_reg]
  · simp [ov6211_write_reg, wrBuf, beBytes4]

/-- C5 (witness): width validation at width 5 (rejected everywhere),
width 0 (read rejected, write attempts the bus). -/
theorem C5_width_validation_witness :
    ov6211_write_reg 0x300a 5 7 = .error (-EINVAL) ∧
    ov6211_read_reg (fun _ _ => some 0x67) 0x300a 0 = .error (-EINVAL) ∧
    ov6211_write_reg 0x300a 0 7 = .ok [0x30, 0x0a] := by
  have h5 := C5_width_validation (fun _ _ => some 0x67) 0x300a 5 7
  have h0 := C5_width_validation (fun _ _ => some 0x67) 0x300a 0 7
  exact ⟨(h5.1 (by decide)).1, (h0.2.1 rfl).1, by rw [h0.2.2]⟩

/-- A sensor mode table entry: the fields of `struct ov6211_mode` /
`struct ox03c10_mode` / `struct ox03j10_mode` consulted by mode selection
and range computation (the register program `reg_list` is passed
separately to the functions that run it; `bus_fmt`, `max_fps` and `vc`
are never consulted by the verified core). -/
structure sensor_mode where
  width : Nat
  height : Nat
  hts_def : Nat
  vts_def : Nat
  exp_def : Nat
  hdr_mode : Nat
deriving DecidableEq

/-- The ov6211 driver's mode table: one 400x400@120fps entry. -/
def ov6211_supported_modes : List sensor_mode :=
  [{ width := 400, height := 400, hts_def := 0x03a1, vts_def := 0x021a,
     exp_def := 0x00f8, hdr_mode := 0 }]

/-- The ox03c10 driver's mode table: one 1920x1536@30fps entry. -/
def ox03c10_supported_modes : List sensor_mode :=
  [{ width := 1920, height := 1536, hts_def := 0x0420, vts_def := 0x069e,
     exp_def := 0x00f8, hdr_mode := 0 }]

/-- The ox03j10 driver's mode table: one 1920x1536@30fps entry. -/
def ox03j10_supported_modes : List sensor_mode :=
  [{ width := 1920, height := 1536, hts_def := 0x0420, vts_def := 0x069e,
     exp_def := 0x00f8, hdr_mode := 0 }]

/-- Interpretation of a `u32` bit pattern as the kernel `abs()` macro's
`signed int` temporary (two's complement, implementation-defined
conversion as the kernel relies on it). -/
def s32ofU32 (n : Nat) : Int :=
  if n % 2 ^ 32 < 2 ^ 31 then ((n % 2 ^ 32 : Nat) : Int)
  else ((n % 2 ^ 32 : Nat) : Int) - 2 ^ 32

/-- Wrapping of a signed value into `int` range (the kernel is compiled
with `-fno-strict-overflow`, so signed overflow wraps). -/
def s32wrap (x : Int) : Int := (x + 2 ^ 31) % 2 ^ 32 - 2 ^ 31

/-- `u32` subtraction `a - b` (mod `2 ^ 32`). -/
def u32sub (a b : Nat) : Nat := (a % 2 ^ 32 + 2 ^ 32 - b % 2 ^ 32) % 2 ^ 32

/-- The kernel `abs()` macro at type `int`: negate-if-negative, with the
negation wrapping in `int` (`abs(INT_MIN) = INT_MIN`). -/
def absS32 (x : Int) : Int := if x < 0 then s32wrap (-x) else x

/-- `get_reso_dist mode framefmt`:
`abs(mode->width - framefmt->width) + abs(mode->height - framefmt->height)`
with `u32` operands, the kernel `abs()` at `int`, and the sum stored in
an `int` (all wrapping).  Identical in all three drivers. -/
def get_reso_dist (m : sensor_mode) (fw fh : Nat) : Int :=
  s32wrap (absS32 (s32ofU32 (u32sub m.width fw)) +
    absS32 (s32ofU32 (u32sub m.height fh)))

/-- The scanning loop of `find_best_fit`: running `cur_best_fit` /
`cur_best_fit_dist` state, updated whenever
`cur_best_fit_dist == -1 || dist < cur_best_fit_dist`. -/
def fbfLoop (fw fh : Nat) : List sensor_mode → Nat → Nat → Int → Nat
  | [], _, best, _ => best
  | m :: rest, i, best, bd =>
    if bd = -1 ∨ get_reso_dist m fw fh < bd then
      fbfLoop fw fh rest (i + 1) i (get_reso_dist m fw fh)
    else fbfLoop fw fh rest (i + 1) best bd

/-- `find_best_fit`: scan the whole table keeping the first entry whose
distance strictly improves the running minimum; returns the index of the
selected entry (`&supported_modes[cur_best_fit]`).  Identical in all
three drivers, each applying it to its own table. -/
def find_best_fit (modes : List sensor_mode) (fw fh : Nat) : Nat :=
  fbfLoop fw fh modes 0 0 (-1)

/-- `ov6211_find_best_fit`, specialised to the ov6211 table. -/
def ov6211_find_best_fit (fw fh : Nat) : Nat :=
  find_best_fit ov6211_supported_modes fw fh

/-- `ox03j10_find_best_fit`, specialised to the ox03j10 table. -/
def ox03j10_find_best_fit (fw fh : Nat) : Nat :=
  find_best_fit ox03j10_supported_modes fw fh

/-- The specification's L1 (Manhattan) distance between a mode and a
requested resolution, over exact integers (no wrapping). -/
def l1Dist (m : sensor_mode) (fw fh : Nat) : Int :=
  |(m.width : Int) - fw| + |(m.height : Int) - fh|

theorem l1Dist_nonneg (m : sensor_mode) (fw fh : Nat) : 0 ≤ l1Dist m fw fh :=
  add_nonneg (abs_nonneg _) (abs_nonneg _)

theorem u32sub_of_le (a b : Nat) (ha : a < 2 ^ 32) (h : b ≤ a) :
    u32sub a b = a - b := by
  unfold u32sub; omega

theorem u32sub_of_lt (a b : Nat) (hb : b < 2 ^ 32) (h : a < b) :
    u32sub a b = 2 ^ 32 - (b - a) := by
  unfold u32sub; omega

/-- Below `2 ^ 30` the wrapping distance computation agrees with the
exact absolute difference. -/
theorem absS32_u32sub (a b : Nat) (ha : a < 2 ^ 30) (hb : b < 2 ^ 30) :
    absS32 (s32ofU32 (u32sub a b)) = |(a : Int) - b| := by
  rcases le_or_lt b a with h | h
  · rw [u32sub_of_le a b (by omega) h]
    unfold s32ofU32
    rw [if_pos (by omega : (a - b) % 2 ^ 32 < 2 ^ 31)]
    unfold absS32
    rw [if_neg (by omega : ¬((((a - b) % 2 ^ 32 : Nat) : Int) < 0))]
    rw [abs_of_nonneg (by omega : (0 : Int) ≤ (a : Int) - b)]
    omega
  · rw [u32sub_of_lt a b (by omega) h]
    unfold s32ofU32
    rw [if_neg (by omega : ¬((2 ^ 32 - (b - a)) % 2 ^ 32 < 2 ^ 31))]
    unfold absS32
    rw [if_pos (by omega :
      (((2 ^ 32 - (b - a)) % 2 ^ 32 : Nat) : Int) - 2 ^ 32 < 0)]
    unfold s32wrap
    rw [abs_of_nonpos (by omega : (a : Int) - b ≤ 0)]
    omega

/-- Below `2 ^ 30` the computed distance equals the exact L1 distance. -/
theorem get_reso_dist_exact (m : sensor_mode) (fw fh : Nat)
    (hw : m.width < 2 ^ 30) (hh : m.height < 2 ^ 30)
    (hfw : fw < 2 ^ 30) (hfh : fh < 2 ^ 30) :
    get_reso_dist m fw fh = l1Dist m fw fh := by
  unfold get_reso_dist
  rw [absS32_u32sub _ _ hw hfw, absS32_u32sub _ _ hh hfh]
  unfold s32wrap l1Dist
  have h1 : |(m.width : Int) - fw| < 2 ^ 30 := by
    rw [abs_lt]; constructor <;> omega
  have h2 : |(m.height : Int) - fh| < 2 ^ 30 := by
    rw [abs_lt]; constructor <;> omega
  have h3 : 0 ≤ |(m.width : Int) - fw| := abs_nonneg _
  have h4 : 0 ≤ |(m.height : Int) - fh| := abs_nonneg _
  omega

/-- Characterisation of the scanning loop once the running minimum is a
real distance (non-negative, so the `-1` sentinel can no longer match):
either `best` survives and `bd` bounds every remaining distance from
below, or the result is the absolute index `i + j` of the first entry
that strictly improves `bd`, is a minimum of the list, and is strictly
below every earlier entry of the list. -/
theorem fbfLoop_spec (fw fh : Nat) (l : List sensor_mode) :
    ∀ (i best : Nat) (bd : Int), 0 ≤ bd →
    (∀ m ∈ l, 0 ≤ get_reso_dist m fw fh) →
    (fbfLoop fw fh l i best bd = best ∧
      ∀ j (hj : j < l.length), bd ≤ get_reso_dist (l.get ⟨j, hj⟩) fw fh) ∨
    (∃ j, ∃ hj : j < l.length, fbfLoop fw fh l i best bd = i + j ∧
      get_reso_dist (l.get ⟨j, hj⟩) fw fh < bd ∧
      (∀ k (hk : k < l.length),
        get_reso_dist (l.get ⟨j, hj⟩) fw fh ≤
          get_reso_dist (l.get ⟨k, hk⟩) fw fh) ∧
      (∀ k (hk : k < j),
        get_reso_dist (l.get ⟨j, hj⟩) fw fh <
          get_reso_dist (l.get ⟨k, Nat.lt_trans hk hj⟩) fw fh)) := by
  induction l with
  | nil =>
    intro i best bd _ _
    left
    exact ⟨rfl, fun j hj => absurd hj (Nat.not_lt_zero j)⟩
  | cons m rest ih =>
    intro i best bd hbd hpos
    have hd : 0 ≤ get_reso_dist m fw fh := hpos m (List.mem_cons_self m rest)
    have hrest : ∀ x ∈ rest, 0 ≤ get_reso_dist x fw fh :=
      fun x hx => hpos x (List.mem_cons_of_mem m hx)
    by_cases hlt : get_reso_dist m fw fh < bd
    · have hstep : fbfLoop fw fh (m :: rest) i best bd =
          fbfLoop fw fh rest (i + 1) i (get_reso_dist m fw fh) := by
        rw [fbfLoop, if_pos (Or.inr hlt)]
      rcases ih (i + 1) i (get_reso_dist m fw fh) hd hrest with
        ⟨heq, hlb⟩ | ⟨j, hj, heq, hjlt, hmin, hstrict⟩
      · right
        refine ⟨0, Nat.succ_pos _, ?_, hlt, ?_, ?_⟩
        · rw [hstep, heq]; omega
        · intro k hk
          cases k with
          | zero => exact le_refl _
          | succ k => exact hlb k (Nat.lt_of_succ_lt_succ hk)
        · intro k hk
          exact absurd hk (Nat.not_lt_zero k)
      · right
        refine ⟨j + 1, Nat.succ_lt_succ hj, ?_, ?_, ?_, ?_⟩
        · rw [hstep, heq]; omega
        · exact lt_trans hjlt hlt
        · intro k hk
          cases k with
          | zero => exact le_of_lt hjlt
          | succ k => exact hmin k (Nat.lt_of_succ_lt_succ hk)
        · intro k hk
          cases k with
          | zero => exact hjlt
          | succ k => exact hstrict k (Nat.lt_of_succ_lt_succ hk)
    · have hbdm : ¬(bd = -1) := by omega
      have hstep : fbfLoop fw fh (m :: rest) i best bd =
          fbfLoop fw fh rest (i + 1) best bd := by
        rw [fbfLoop, if_neg (not_or.mpr ⟨hbdm, hlt⟩)]
      rcases ih (i + 1) best bd hbd hrest with
        ⟨heq, hlb⟩ | ⟨j, hj, heq, hjlt, hmin, hstrict⟩
      · left
        refine ⟨hstep.trans heq, ?_⟩
        intro j hj
        cases j with
        | zero => exact le_of_not_lt hlt
        | succ j => exact hlb j (Nat.lt_of_succ_lt_succ hj)
      · right
        refine ⟨j + 1, Nat.succ_lt_succ hj, ?_, hjlt, ?_, ?_⟩
        · rw [hstep, heq]; omega
        · intro k hk
          cases k with
          | zero => exact le_trans (le_of_lt hjlt) (le_of_not_lt hlt)
          | succ k => exact hmin k (Nat.lt_of_succ_lt_succ hk)
        · intro k hk
          cases k with
          | zero => exact lt_of_lt_of_le hjlt (le_of_not_lt hlt)
          | succ k => exact hstrict k (Nat.lt_of_succ_lt_succ hk)

/-- A minimal entry inherits an exact resolution match present anywhere
in the table. -/
theorem exact_match_of_min (modes : List sensor_mode) (fw fh : Nat)
    (r : Nat) (hr : r < modes.length)
    (hmin : ∀ j (hj : j < modes.length),
      l1Dist (modes.get ⟨r, hr⟩) fw fh ≤ l1Dist (modes.get ⟨j, hj⟩) fw fh)
    (j : Nat) (hj : j < modes.length)
    (hwj : (modes.get ⟨j, hj⟩).width = fw)
    (hhj : (modes.get ⟨j, hj⟩).height = fh) :
    (modes.get ⟨r, hr⟩).width = fw ∧ (modes.get ⟨r, hr⟩).height = fh := by
  have h1 : l1Dist (modes.get ⟨j, hj⟩) fw fh = 0 := by
    unfold l1Dist; rw [hwj, hhj]; simp
  have h2 := hmin j hj
  rw [h1] at h2
  unfold l1Dist at h2
  have h3 : 0 ≤ |((modes.get ⟨r, hr⟩).width : Int) - fw| := abs_nonneg _
  have h4 : 0 ≤ |((modes.get ⟨r, hr⟩).height : Int) - fh| := abs_nonneg _
  have hA : ((modes.get ⟨r, hr⟩).width : Int) - fw = 0 :=
    abs_eq_zero.mp (by omega)
  have hB : ((modes.get ⟨r, hr⟩).height : Int) - fh = 0 :=
    abs_eq_zero.mp (by omega)
  constructor <;> omega

/-- Unconditional totality of the scanning loop: the result is either the
incoming `best` or the absolute index of some scanned entry, for every
running minimum (wrapped or not). -/
theorem fbfLoop_total (fw fh : Nat) (l : List sensor_mode) :
    ∀ (i best : Nat) (bd : Int),
      fbfLoop fw fh l i best bd = best ∨
      ∃ j, j < l.length ∧ fbfLoop fw fh l i best bd = i + j := by
  induction l with
  | nil => intro i best bd; exact Or.inl rfl
  | cons m rest ih =>
    intro i best bd
    by_cases hc : bd = -1 ∨ get_reso_dist m fw fh < bd
    · have hstep : fbfLoop fw fh (m :: rest) i best bd =
          fbfLoop fw fh rest (i + 1) i (get_reso_dist m fw fh) := by
        rw [fbfLoop, if_pos hc]
      rcases ih (i + 1) i (get_reso_dist m fw fh) with h | ⟨j, hj, h⟩
      · exact Or.inr ⟨0, Nat.succ_pos _, by rw [hstep, h]; omega⟩
      · exact Or.inr ⟨j + 1, Nat.succ_lt_succ hj, by rw [hstep, h]; omega⟩
    · have hstep : fbfLoop fw fh (m :: rest) i best bd =
          fbfLoop fw fh rest (i + 1) best bd := by
        rw [fbfLoop, if_neg hc]
      rcases ih (i + 1) best bd with h | ⟨j, hj, h⟩
      · exact Or.inl (hstep.trans h)
      · exact Or.inr ⟨j + 1, Nat.succ_lt_succ hj, by rw [hstep, h]; omega⟩

/-- With at least one table entry, `find_best_fit` always returns a valid
index — for every requested width and height, wrap-range ones included. -/
theorem find_best_fit_lt (modes : List sensor_mode) (fw fh : Nat)
    (hne : modes ≠ []) : find_best_fit modes fw fh < modes.length := by
  cases modes with
  | nil => exact absurd rfl hne
  | cons m rest =>
    rcases fbfLoop_total fw fh (m :: rest) 0 0 (-1) with h | ⟨j, hj, h⟩
    · unfold find_best_fit
      rw [h]
      exact Nat.succ_pos _
    · unfold find_best_fit
      rw [h]
      simpa using hj

/-- Under the no-wrap bound `2 ^ 30` the selected entry minimises the
exact L1 distance, is strictly closer than every lower-indexed entry, and
inherits an exact resolution match present anywhere in the table. -/
theorem find_best_fit_minimality (modes : List sensor_mode) (fw fh : Nat)
    (hr : find_best_fit modes fw fh < modes.length)
    (hdims : ∀ m ∈ modes, m.width < 2 ^ 30 ∧ m.height < 2 ^ 30)
    (hfw : fw < 2 ^ 30) (hfh : fh < 2 ^ 30) :
    (∀ j (hj : j < modes.length),
      l1Dist (modes.get ⟨find_best_fit modes fw fh, hr⟩) fw fh ≤
        l1Dist (modes.get ⟨j, hj⟩) fw fh) ∧
    (∀ j (hj : j < modes.length), j < find_best_fit modes fw fh →
      l1Dist (modes.get ⟨find_best_fit modes fw fh, hr⟩) fw fh <
        l1Dist (modes.get ⟨j, hj⟩) fw fh) ∧
    (∀ j (hj : j < modes.length),
      (modes.get ⟨j, hj⟩).width = fw ∧ (modes.get ⟨j, hj⟩).height = fh →
      (modes.get ⟨find_best_fit modes fw fh, hr⟩).width = fw ∧
        (modes.get ⟨find_best_fit modes fw fh, hr⟩).height = fh) := by
  cases modes with
  | nil => exact absurd hr (by simp)
  | cons m rest =>
    have hEq : ∀ x ∈ m :: rest, get_reso_dist x fw fh = l1Dist x fw fh :=
      fun x hx =>
        get_reso_dist_exact x fw fh (hdims x hx).1 (hdims x hx).2 hfw hfh
    have hEqm := hEq m (List.mem_cons_self m rest)
    have hEqr : ∀ k (hk : k < rest.length),
        get_reso_dist (rest.get ⟨k, hk⟩) fw fh =
          l1Dist (rest.get ⟨k, hk⟩) fw fh :=
      fun k hk => hEq _ (List.mem_cons_of_mem m (List.get_mem rest k hk))
    have hposr : ∀ x ∈ rest, 0 ≤ get_reso_dist x fw fh := by
      intro x hx
      rw [hEq x (List.mem_cons_of_mem m hx)]
      exact l1Dist_nonneg x fw fh
    have hstep : find_best_fit (m :: rest) fw fh =
        fbfLoop fw fh rest 1 0 (get_reso_dist m fw fh) := by
      unfold find_best_fit
      rw [fbfLoop, if_pos (Or.inl rfl)]
    have hd : 0 ≤ get_reso_dist m fw fh := by
      rw [hEqm]; exact l1Dist_nonneg m fw fh
    rcases fbfLoop_spec fw fh rest 1 0 (get_reso_dist m fw fh) hd hposr with
      ⟨heq, hlb⟩ | ⟨j, hj, heq, hjlt, hmin, hstrict⟩
    · have hfbf : find_best_fit (m :: rest) fw fh = 0 := hstep.trans heq
      have hfin : (⟨find_best_fit (m :: rest) fw fh, hr⟩ :
          Fin (m :: rest).length) = ⟨0, Nat.succ_pos rest.length⟩ :=
        Fin.ext hfbf
      rw [hfin, hfbf]
      have hmin_all : ∀ k (hk : k < (m :: rest).length),
          l1Dist ((m :: rest).get ⟨0, Nat.succ_pos rest.length⟩) fw fh ≤
            l1Dist ((m :: rest).get ⟨k, hk⟩) fw fh := by
        intro k hk
        cases k with
        | zero => exact le_refl _
        | succ k =>
          have h := hlb k (Nat.lt_of_succ_lt_succ hk)
          rw [hEqm, hEqr k (Nat.lt_of_succ_lt_succ hk)] at h
          exact h
      refine ⟨hmin_all, ?_, ?_⟩
      · intro k hk hk0
        exact absurd hk0 (Nat.not_lt_zero k)
      · intro k hk hmatch
        exact exact_match_of_min (m :: rest) fw fh 0
          (Nat.succ_pos rest.length) hmin_all k hk hmatch.1 hmatch.2
    · have hfbf : find_best_fit (m :: rest) fw fh = j + 1 := by
        rw [hstep, heq]; omega
      have hr1 : j + 1 < (m :: rest).length := Nat.succ_lt_succ hj
      have hfin : (⟨find_best_fit (m :: rest) fw fh, hr⟩ :
          Fin (m :: rest).length) = ⟨j + 1, hr1⟩ :=
        Fin.ext hfbf
      rw [hfin, hfbf]
      have hjlt2 : l1Dist ((m :: rest).get ⟨j + 1, hr1⟩) fw fh <
          l1Dist m fw fh := by
        have h := hjlt
        rw [hEqm, hEqr j hj] at h
        exact h
      have hmin_all : ∀ k (hk : k < (m :: rest).length),
          l1Dist ((m :: rest).get ⟨j + 1, hr1⟩) fw fh ≤
            l1Dist ((m :: rest).get ⟨k, hk⟩) fw fh := by
        intro k hk
        cases k with
        | zero => exact le_of_lt hjlt2
        | succ k =>
          have h := hmin k (Nat.lt_of_succ_lt_succ hk)
          rw [hEqr j hj, hEqr k (Nat.lt_of_succ_lt_succ hk)] at h
          exact h
      refine ⟨hmin_all, ?_, ?_⟩
      · intro k hk hkj1
        cases k with
        | zero => exact hjlt2
        | succ k =>
          have hkj : k < j := Nat.lt_of_succ_lt_succ hkj1
          have h := hstrict k hkj
          rw [hEqr j hj, hEqr k (Nat.lt_trans hkj hj)] at h
          exact h
      · intro k hk hmatch
        exact exact_match_of_min (m :: rest) fw fh (j + 1) hr1
          hmin_all k hk hmatch.1 hmatch.2

/-- C9 (amended): `find_best_fit` is total over ALL requested widths and
heights — with at least one table entry it always returns a valid table
index — and, provided every dimension involved is below `2 ^ 30` (so the
`u32`/`int` distance computation cannot wrap), the selected entry
minimises the exact L1 distance, any lower-indexed entry is strictly
farther (ties resolve to the lowest index), and an exact resolution match
anywhere in the table forces the selected entry to have exactly the
requested width and height. -/
theorem C9_find_best_fit (modes : List sensor_mode) (fw fh : Nat)
    (hne : modes ≠ []) :
    ∃ hr : find_best_fit modes fw fh < modes.length,
      (∀ m ∈ modes, m.width < 2 ^ 30 ∧ m.height < 2 ^ 30) →
      fw < 2 ^ 30 → fh < 2 ^ 30 →
      (∀ j (hj : j < modes.length),
        l1Dist (modes.get ⟨find_best_fit modes fw fh, hr⟩) fw fh ≤
          l1Dist (modes.get ⟨j, hj⟩) fw fh) ∧
      (∀ j (hj : j < modes.length), j < find_best_fit modes fw fh →
        l1Dist (modes.get ⟨find_best_fit modes fw fh, hr⟩) fw fh <
          l1Dist (modes.get ⟨j, hj⟩) fw fh) ∧
      (∀ j (hj : j < modes.length),
        (modes.get ⟨j, hj⟩).width = fw ∧ (modes.get ⟨j, hj⟩).height = fh →
        (modes.get ⟨find_best_fit modes fw fh, hr⟩).width = fw ∧
          (modes.get ⟨find_best_fit modes fw fh, hr⟩).height = fh) :=
  ⟨find_best_fit_lt modes fw fh hne, fun hdims hfw hfh =>
    find_best_fit_minimality modes fw fh
      (find_best_fit_lt modes fw fh hne) hdims hfw hfh⟩

/-- C9 (witness): totality and the no-wrap best-fit properties at the
ov6211 table and the request 1x1 (the spec's own scenario: the single
400x400 entry is returned), with every hypothesis discharged. -/
theorem C9_find_best_fit_witness :
    ∃ hr : find_best_fit ov6211_supported_modes 1 1 <
        ov6211_supported_modes.length,
      (∀ j (hj : j < ov6211_supported_modes.length),
        l1Dist (ov6211_supported_modes.get
          ⟨find_best_fit ov6211_supported_modes 1 1, hr⟩) 1 1 ≤
          l1Dist (ov6211_supported_modes.get ⟨j, hj⟩) 1 1) ∧
      (∀ j (hj : j < ov6211_supported_modes.length),
        j < find_best_fit ov6211_supported_modes 1 1 →
        l1Dist (ov6211_supported_modes.get
          ⟨find_best_fit ov6211_supported_modes 1 1, hr⟩) 1 1 <
          l1Dist (ov6211_supported_modes.get ⟨j, hj⟩) 1 1) ∧
      (∀ j (hj : j < ov6211_supported_modes.length),
        (ov6211_supported_modes.get ⟨j, hj⟩).width = 1 ∧
          (ov6211_supported_modes.get ⟨j, hj⟩).height = 1 →
        (ov6211_supported_modes.get
          ⟨find_best_fit ov6211_supported_modes 1 1, hr⟩).width = 1 ∧
          (ov6211_supported_modes.get
            ⟨find_best_fit ov6211_supported_modes 1 1, hr⟩).height = 1) := by
  obtain ⟨hr, h⟩ := C9_find_best_fit ov6211_supported_modes 1 1 (by decide)
  exact ⟨hr, h (by decide) (by decide) (by decide)⟩

/-- C9 (counterexample): with `u32` requested dimensions the wrapping
distance computation defeats exact-L1 minimality: on the two-entry table
`[{0, 0}, {8, 0}]` and the request `(2 ^ 31 + 4, 0)`, both wrapped
distances compute to `2 ^ 31 - 4`, so the tie keeps index 0 — yet entry 1
is strictly closer in exact L1 distance (and entry 0 is not). -/
theorem C9_wrap_defeats_minimality :
    find_best_fit
      [⟨0, 0, 0, 0, 0, 0⟩, ⟨8, 0, 0, 0, 0, 0⟩] (2 ^ 31 + 4) 0 = 0 ∧
    l1Dist ⟨8, 0, 0, 0, 0, 0⟩ (2 ^ 31 + 4) 0 <
      l1Dist ⟨0, 0, 0, 0, 0, 0⟩ (2 ^ 31 + 4) 0 := by
  constructor
  · rfl
  · unfold l1Dist
    rw [abs_of_nonpos (by norm_num), abs_of_nonpos (by norm_num)]
    norm_num

/-- Modelled from the spec: the gain-split policy of the HDR automotive
variant driver's gain handler.  That fourth driver of the repository is
not present under `src/` (the three drivers there perform a single
masked 2-byte gain write, `ctrl->val & ANALOG_GAIN_MASK`).  Per the
spec: if the requested gain exceeds the threshold 1984 (device units),
analog gain is pegged at the threshold and digital gain absorbs the
remainder scaled by `requested * 1024 / 1984` (integer division);
otherwise digital gain is fixed at unity (1024) and analog gain carries
the full value; both halves are masked (13 bits / 14 bits respectively)
before writing.  Returns the written pair `(again, dgain)`. -/
def hdr_variant_gain_split (gain : Nat) : Nat × Nat :=
  if 1984 < gain then (1984 &&& 0x1fff, (gain * 1024 / 1984) &&& 0x3fff)
  else (gain &&& 0x1fff, 1024 &&& 0x3fff)

/-- C1 (counterexample): by the claim's own formula, integer division
gives `2200 * 1024 / 1984 = 1135`, so the claimed scenario value
`dgain = 1137` is wrong: the split at requested gain 2200 writes
`(1984, 1135)`. -/
theorem C1_gain_2200_writes_1135 :
    hdr_variant_gain_split 2200 = (1984, 1135) ∧
    (2200 * 1024 / 1984 : Nat) ≠ 1137 := by
  constructor <;> decide

/-- C1 (amended): the split policy as claimed — gain above 1984 pegs the
analog gain at 1984 and writes `requested * 1024 / 1984` (masked to 14
bits) as digital gain, gain at or below 1984 writes the full masked value
as analog gain with unity digital gain — and the scenario value for a
requested gain of 2200 is `dgain = 1135` (not 1137). -/
theorem C1_gain_split (gain : Nat) :
    (1984 < gain →
      hdr_variant_gain_split gain =
        (1984, (gain * 1024 / 1984) &&& 0x3fff)) ∧
    (gain ≤ 1984 →
      hdr_variant_gain_split gain = (gain &&& 0x1fff, 1024)) ∧
    hdr_variant_gain_split 2200 = (1984, 1135) := by
  refine ⟨fun h => ?_, fun h => ?_, by decide⟩
  · unfold hdr_variant_gain_split
    rw [if_pos h, show (1984 &&& 0x1fff : Nat) = 1984 from by decide]
  · unfold hdr_variant_gain_split
    rw [if_neg (not_lt.mpr h),
      show (1024 &&& 0x3fff : Nat) = 1024 from by decide]

/-- C1 (witness): the amended split at requested gains 2200 and 1000. -/
theorem C1_gain_split_witness :
    hdr_variant_gain_split 2200 = (1984, (2200 * 1024 / 1984) &&& 0x3fff) ∧
    hdr_variant_gain_split 1000 = (1000 &&& 0x1fff, 1024) :=
  ⟨(C1_gain_split 2200).1 (by decide), (C1_gain_split 1000).2.1 (by decide)⟩

/-- The logical control ids handled by `set_ctrl` (`V4L2_CID_*`). -/
inductive CtrlId where
  | exposure
  | analogue_gain
  | vblank
  | test_pattern
  | hflip
  | vflip
  | other (id : Nat)
deriving DecidableEq

/-- The externally visible range metadata of a control
(`struct v4l2_ctrl`: minimum / maximum / step / default_value, `s64`). -/
structure CtrlRange where
  minimum : Int
  maximum : Int
  step : Int
  default_value : Int
deriving DecidableEq

/-- One `write_reg` call inside `set_ctrl` (all widths there are ≤ 4, so
the width check never fires): emit the send, turning a short send into
`- EIO`. -/
def sendOne (r : CtrlRange) (busOk : SendOk) (reg len v : Nat) :
    CtrlRange × List BusEvent × Int :=
  (r, [.send (wrBuf reg len v)], if busOk (wrBuf reg len v) then 0 else - EIO)

/-- The read-modify-write of the mirror/flip handlers: 8-bit read (a
failed read leaves the `val` accumulator 0 and its error in `ret`),
transform, 8-bit write whose result is OR-ed into `ret`
(`ret |= write_reg(...)`). -/
def rmw (r : CtrlRange) (bus : ReadBus) (busOk : SendOk) (reg : Nat)
    (f : Nat → Nat) : CtrlRange × List BusEvent × Int :=
  let rd := ov6211_read_reg bus reg 1
  let v := match rd with | .ok v => v | .error _ => 0
  let rdRet : Int := match rd with | .ok _ => 0 | .error e => e
  (r, [.xfer reg 1, .send (wrBuf reg 1 (f v))],
    Int.lor rdRet (if busOk (wrBuf reg 1 (f v)) then 0 else - EIO))

/-- `OV6211_FETCH_MIRROR(VAL, ENABLE)` (identical macro in ox03j10). -/
def fetch_mirror (enable v : Nat) : Nat :=
  if enable ≠ 0 then v ||| 0x01 else v &&& 0xf9

/-- `OV6211_FETCH_FLIP(VAL, ENABLE)` (identical macro in ox03j10). -/
def fetch_flip (enable v : Nat) : Nat :=
  if enable ≠ 0 then v ||| 0x01 else v &&& 0x9f

/-- Step 1 of `set_ctrl` (common to ov6211 and ox03j10, margin 20): a
VBlank change recomputes the exposure control's maximum as
`cur_mode->height + ctrl->val - 20`; other ids leave the range alone. -/
def vblank_range_propagate (height : Nat) (exposure : CtrlRange)
    (id : CtrlId) (val : Nat) : CtrlRange :=
  match id with
  | .vblank => { exposure with maximum := (height : Int) + val - 20 }
  | _ => exposure

/-- `ov6211_set_ctrl`: the V4L2 control handler.  Step 1, before the
power gate and unconditionally: a VBlank change recomputes the exposure
control's maximum as `cur_mode->height + ctrl->val - 20`.  Step 2:
`pm_runtime_get_if_in_use` — if the device is not actively powered,
return 0 with no bus traffic.  Step 3: the per-control register
encoding (exposure shifted left 4 into a 3-byte register; analog gain
masked with 0x3ff into a 2-byte register; vblank written as
`val + height` into VTS; test pattern `(val - 1) | 0x80` or 0; mirror
and flip as read-modify-write); unknown ids are a logged no-op success.
Returns the updated exposure range, the bus events, and `ret`. -/
def ov6211_set_ctrl (height : Nat) (exposure : CtrlRange) (powered : Bool)
    (bus : ReadBus) (busOk : SendOk) (id : CtrlId) (val : Nat) :
    CtrlRange × List BusEvent × Int :=
  let exposure' := vblank_range_propagate height exposure id val
  if !powered then (exposure', [], 0)
  else
    match id with
    | .exposure => sendOne exposure' busOk 0x3500 3 (val <<< 4)
    | .analogue_gain => sendOne exposure' busOk 0x350a 2 (val &&& 0x3ff)
    | .vblank => sendOne exposure' busOk 0x380e 2 (val + height)
    | .test_pattern =>
        sendOne exposure' busOk 0x5e00 1
          (if val ≠ 0 then (val - 1) ||| 0x80 else 0)
    | .hflip => rmw exposure' bus busOk 0x3821 (fetch_mirror val)
    | .vflip => rmw exposure' bus busOk 0x3820 (fetch_flip val)
    | .other _ => (exposure', [], 0)

/-- `ox03j10_set_ctrl`: same structure, registers, masks and margin as
`ov6211_set_ctrl`. -/
def ox03j10_set_ctrl (height : Nat) (exposure : CtrlRange) (powered : Bool)
    (bus : ReadBus) (busOk : SendOk) (id : CtrlId) (val : Nat) :
    CtrlRange × List BusEvent × Int :=
  let exposure' := vblank_range_propagate height exposure id val
  if !powered then (exposure', [], 0)
  else
    match id with
    | .exposure => sendOne exposure' busOk 0x3500 3 (val <<< 4)
    | .analogue_gain => sendOne exposure' busOk 0x350a 2 (val &&& 0x3ff)
    | .vblank => sendOne exposure' busOk 0x380e 2 (val + height)
    | .test_pattern =>
        sendOne exposure' busOk 0x5e00 1
          (if val ≠ 0 then (val - 1) ||| 0x80 else 0)
    | .hflip => rmw exposure' bus busOk 0x3821 (fetch_mirror val)
    | .vflip => rmw exposure' bus busOk 0x3820 (fetch_flip val)
    | .other _ => (exposure', [], 0)

/-- C2: in both cited drivers, setting VBlank to X updates the exposure
control's advertised maximum to `mode.height + X - 20` (the chips' margin
constant), for every X and in every power state — the range propagation
happens before the power gate, so it takes effect even powered off. -/
theorem C2_vblank_updates_exposure_max (height : Nat) (exposure : CtrlRange)
    (powered : Bool) (bus : ReadBus) (busOk : SendOk) (X : Nat) :
    ((ov6211_set_ctrl height exposure powered bus busOk .vblank X).1).maximum =
      (height : Int) + X - 20 ∧
    ((ox03j10_set_ctrl height exposure powered bus busOk .vblank X).1).maximum =
      (height : Int) + X - 20 := by
  cases powered <;> exact ⟨rfl, rfl⟩

/-- The stored (last-set) values of the controls registered with
`ov6211_ctrl_ops`, in registration order — the values
`__v4l2_ctrl_handler_setup` replays. -/
structure StoredCtrls where
  vblank : Nat
  exposure : Nat
  anal_gain : Nat
  test_pattern : Nat
  hflip : Nat
  vflip : Nat
deriving DecidableEq

/-- One control of the handler-setup loop: skip if an earlier control
already failed, otherwise re-apply the stored value through
`ov6211_set_ctrl` with the device powered. -/
def ov6211_replay_step (height : Nat) (bus : ReadBus) (busOk : SendOk)
    (id : CtrlId) (val : Nat) (acc : CtrlRange × List BusEvent × Int) :
    CtrlRange × List BusEvent × Int :=
  if acc.2.2 ≠ 0 then acc
  else
    let s := ov6211_set_ctrl height acc.1 true bus busOk id val
    (s.1, acc.2.1 ++ s.2.1, s.2.2)

/-- `__v4l2_ctrl_handler_setup(&ov6211->ctrl_handler)`: re-applies every
control's stored value in registration order (vblank, exposure, analog
gain, test pattern, hflip, vflip — the read-only controls have no op),
stopping at the first error. -/
def ov6211_ctrl_replay (height : Nat) (exposure : CtrlRange)
    (bus : ReadBus) (busOk : SendOk) (st : StoredCtrls) :
    CtrlRange × List BusEvent × Int :=
  ov6211_replay_step height bus busOk .vflip st.vflip
    (ov6211_replay_step height bus busOk .hflip st.hflip
      (ov6211_replay_step height bus busOk .test_pattern st.test_pattern
        (ov6211_replay_step height bus busOk .analogue_gain st.anal_gain
          (ov6211_replay_step height bus busOk .exposure st.exposure
            (ov6211_replay_step height bus busOk .vblank st.vblank
              (exposure, [], 0))))))

/-- `__ov6211_start_stream`: run the current mode's register program,
then replay every control ("in case these controls are set before
streaming"), then write the streaming-enable bit to `0x0100`; stop at
the first error. -/
def ov6211_start_stream (reg_list : List regval) (height : Nat)
    (exposure : CtrlRange) (bus : ReadBus) (busOk : SendOk)
    (st : StoredCtrls) : List BusEvent × Int :=
  let prog := ov6211_write_array busOk reg_list
  if prog.2 ≠ 0 then prog
  else
    let rep := ov6211_ctrl_replay height exposure bus busOk st
    if rep.2.2 ≠ 0 then (prog.1 ++ rep.2.1, rep.2.2)
    else
      (prog.1 ++ rep.2.1 ++ [.send (wrBuf 0x0100 1 1)],
        if busOk (wrBuf 0x0100 1 1) then 0 else - EIO)

/-- Recognises a bus send addressed to the exposure register `0x3500`
(address bytes `0x35, 0x00`). -/
def isExpWrite : BusEvent → Bool
  | .send bytes => bytes.take 2 == [0x35, 0x00]
  | _ => false

/-- A powered `set_ctrl` on any control other than Exposure emits no
send addressed to the exposure register. -/
theorem filter_exp_set_ctrl_ne (height : Nat) (r : CtrlRange)
    (bus : ReadBus) (busOk : SendOk) (id : CtrlId) (v : Nat)
    (hid : id ≠ CtrlId.exposure) :
    ((ov6211_set_ctrl height r true bus busOk id v).2.1.filter isExpWrite)
      = [] := by
  cases id <;>
    simp_all [ov6211_set_ctrl, sendOne, rmw, isExpWrite, wrBuf, beBytes4,
      List.filter]

/-- A replay step on any control other than Exposure leaves the filtered
exposure writes unchanged. -/
theorem ov6211_replay_step_filter (height : Nat) (bus : ReadBus)
    (busOk : SendOk) (id : CtrlId) (v : Nat)
    (acc : CtrlRange × List BusEvent × Int) (hid : id ≠ CtrlId.exposure) :
    ((ov6211_replay_step height bus busOk id v acc).2.1.filter isExpWrite)
      = acc.2.1.filter isExpWrite := by
  unfold ov6211_replay_step
  by_cases hr : acc.2.2 ≠ 0
  · rw [if_pos hr]
  · rw [if_neg hr]
    simp [List.filter_append,
      filter_exp_set_ctrl_ne height acc.1 bus busOk id v hid]

/-- C6: setting Exposure while the device is not actively powered
performs no bus transaction and returns success; a powered set issues
exactly the 3-byte write of `E << 4` to register `0x3500`; the control
replay run by stream-start appears verbatim in the stream-start event
sequence, and the only exposure-register write it issues is that very
same write. -/
theorem C6_exposure_replay_equiv (E height : Nat) (exposure : CtrlRange)
    (bus : ReadBus) (st : StoredCtrls) (reg_list : List regval) :
    ov6211_set_ctrl height exposure false bus allOk .exposure E =
      (exposure, [], 0) ∧
    (ov6211_set_ctrl height exposure true bus allOk .exposure E).2.1 =
      [.send (wrBuf 0x3500 3 (E <<< 4))] ∧
    (∃ tail,
      (ov6211_start_stream reg_list height exposure bus allOk
          { st with exposure := E }).1 =
        (ov6211_write_array allOk reg_list).1 ++
          (ov6211_ctrl_replay height exposure bus allOk
            { st with exposure := E }).2.1 ++ tail) ∧
    ((ov6211_ctrl_replay height exposure bus allOk
        { st with exposure := E }).2.1.filter isExpWrite) =
      [.send (wrBuf 0x3500 3 (E <<< 4))] := by
  have hvb : ov6211_replay_step height bus allOk .vblank st.vblank
      (exposure, [], 0) =
      ({ exposure with maximum := (height : Int) + st.vblank - 20 },
        [.send (wrBuf 0x380e 2 (st.vblank + height))], 0) := by
    simp [ov6211_replay_step, ov6211_set_ctrl, vblank_range_propagate,
      sendOne, allOk]
  have hexp : ∀ r es,
      ov6211_replay_step height bus allOk .exposure E (r, es, 0) =
        (r, es ++ [.send (wrBuf 0x3500 3 (E <<< 4))], 0) := by
    intro r es
    simp [ov6211_replay_step, ov6211_set_ctrl, vblank_range_propagate,
      sendOne, allOk]
  refine ⟨rfl, rfl, ?_, ?_⟩
  · unfold ov6211_start_stream
    rw [if_neg (by simp [write_array_allOk_ret] : ¬(ov6211_write_array allOk
      reg_list).2 ≠ 0)]
    by_cases hrep : (ov6211_ctrl_replay height exposure bus allOk
        { st with exposure := E }).2.2 ≠ 0
    · exact ⟨[], by rw [if_pos hrep, List.append_nil]⟩
    · exact ⟨[.send (wrBuf 0x0100 1 1)], by rw [if_neg hrep]⟩
  · unfold ov6211_ctrl_replay
    rw [ov6211_replay_step_filter _ _ _ _ _ _ (by intro h; cases h),
      ov6211_replay_step_filter _ _ _ _ _ _ (by intro h; cases h),
      ov6211_replay_step_filter _ _ _ _ _ _ (by intro h; cases h),
      ov6211_replay_step_filter _ _ _ _ _ _ (by intro h; cases h)]
    show ((ov6211_replay_step height bus allOk .exposure E
      (ov6211_replay_step height bus allOk .vblank st.vblank
        (exposure, [], 0))).2.1.filter isExpWrite) = _
    rw [hvb, hexp]
    simp [isExpWrite, wrBuf, beBytes4, List.filter]

/-- The driver-state fields touched by the public operations
(`struct ov6211`: `streaming`, `power_on`, `cur_mode` as a table index),
plus the host runtime-PM usage count the driver manipulates through
`pm_runtime_get_sync` / `pm_runtime_put` / `pm_runtime_put_noidle`. -/
structure DevState where
  streaming : Bool
  power_on : Bool
  cur_mode : Nat
  pmCount : Nat
deriving DecidableEq

/-- Coarse events of the state-machine operations: runtime-PM reference
acquisition and release, a register-program run, a write of the
mode-control register `0x0100`, a read, and a jittered sleep. -/
inductive OpEvent where
  | pmGetSync
  | pmPut
  | pmPutNoidle
  | regProgram
  | ctrlModeWrite (v : Nat)
  | regRead (reg : Nat)
  | delay (lo hi : Nat)
deriving DecidableEq

/-- `ov6211_s_stream on`: no-op when the request equals the current
`streaming` flag.  Entering: `pm_runtime_get_sync` (on failure,
`pm_runtime_put_noidle` and abort with its return value), then
`__ov6211_start_stream` (mode program, control replay, streaming bit; on
failure `pm_runtime_put` and abort, flag left false), then a 10–12 ms
sleep.  Leaving: write the standby bit (result ignored) and
`pm_runtime_put`.  `pmRet` is the oracle for `pm_runtime_get_sync`
(failure iff negative) and `progOk` for the stream-start writes. -/
def ov6211_s_stream (pmRet : Int) (progOk : Bool) (onReq : Bool)
    (s : DevState) : DevState × List OpEvent × Int :=
  if onReq = s.streaming then (s, [], 0)
  else if onReq then
    if pmRet < 0 then (s, [.pmGetSync, .pmPutNoidle], pmRet)
    else if !progOk then (s, [.pmGetSync, .regProgram, .pmPut], - EIO)
    else
      ({ s with streaming := true, pmCount := s.pmCount + 1 },
        [.pmGetSync, .regProgram, .ctrlModeWrite 1, .delay 10000 12000], 0)
  else
    ({ s with streaming := false, pmCount := s.pmCount - 1 },
      [.ctrlModeWrite 0, .pmPut], 0)

/-- `ox03j10_s_stream onReq`: as `ov6211_s_stream`, except that after a
successful start it additionally reads the debug registers `0x1952` and
`0x21b0`, and the 10–12 ms sleep precedes those reads. -/
def ox03j10_s_stream (pmRet : Int) (progOk : Bool) (onReq : Bool)
    (s : DevState) : DevState × List OpEvent × Int :=
  if onReq = s.streaming then (s, [], 0)
  else if onReq then
    if pmRet < 0 then (s, [.pmGetSync, .pmPutNoidle], pmRet)
    else if !progOk then (s, [.pmGetSync, .regProgram, .pmPut], - EIO)
    else
      ({ s with streaming := true, pmCount := s.pmCount + 1 },
        [.pmGetSync, .regProgram, .ctrlModeWrite 1, .delay 10000 12000,
          .regRead 0x1952, .regRead 0x21b0], 0)
  else
    ({ s with streaming := false, pmCount := s.pmCount - 1 },
      [.ctrlModeWrite 0, .pmPut], 0)

/-- `ov6211_s_power onReq`: no-op when the request equals the current
`power_on` flag.  Powering onReq: `pm_runtime_get_sync` (onReq failure,
`pm_runtime_put_noidle` and abort), then the global register program (onReq
failure, `pm_runtime_put_noidle` and abort), then set the flag.
Powering off: `pm_runtime_put` and clear the flag. -/
def ov6211_s_power (pmRet : Int) (progOk : Bool) (onReq : Bool)
    (s : DevState) : DevState × List OpEvent × Int :=
  if s.power_on = onReq then (s, [], 0)
  else if onReq then
    if pmRet < 0 then (s, [.pmGetSync, .pmPutNoidle], pmRet)
    else if !progOk then (s, [.pmGetSync, .regProgram, .pmPutNoidle], - EIO)
    else
      ({ s with power_on := true, pmCount := s.pmCount + 1 },
        [.pmGetSync, .regProgram], 0)
  else
    ({ s with power_on := false, pmCount := s.pmCount - 1 }, [.pmPut], 0)

/-- The states reachable through the public operations, starting from the
post-probe state (not streaming, flag off, default mode 0, no reference
held — probe ends with `pm_runtime_set_active` + `pm_runtime_idle`, usage
count 0).  A `set_ctrl` call touches none of these fields and balances
`pm_runtime_get_if_in_use` with `pm_runtime_put`, so it preserves the
state. -/
inductive ov6211_Reachable : DevState → Prop where
  | init : ov6211_Reachable ⟨false, false, 0, 0⟩
  | s_power (pmRet : Int) (progOk onReq : Bool) (s : DevState) :
      ov6211_Reachable s →
      ov6211_Reachable (ov6211_s_power pmRet progOk onReq s).1
  | s_stream (pmRet : Int) (progOk onReq : Bool) (s : DevState) :
      ov6211_Reachable s →
      ov6211_Reachable (ov6211_s_stream pmRet progOk onReq s).1
  | set_ctrl (s : DevState) : ov6211_Reachable s → ov6211_Reachable s

/-- In every reachable state the runtime-PM usage count is exactly one
reference per set flag: one held by `s_power(1)` and one held by
`s_stream(1)`. -/
theorem reachable_pm_count (s : DevState) (h : ov6211_Reachable s) :
    s.pmCount = (if s.power_on then 1 else 0) +
      (if s.streaming then 1 else 0) := by
  induction h with
  | init => rfl
  | s_power pmRet progOk onReq s hs ih =>
    unfold ov6211_s_power
    by_cases h1 : s.power_on = onReq
    · simpa [h1] using ih
    · cases onReq
      · have hpo : s.power_on = true := by
          cases hpo : s.power_on <;> simp_all
        simp only [if_neg h1, if_neg (by simp : ¬(false = true))]
        simp only [hpo, if_pos rfl] at ih
        simp [ih]
      · have hpo : s.power_on = false := by
          cases hpo : s.power_on <;> simp_all
        by_cases h2 : pmRet < 0
        · simpa [h1, h2] using ih
        · cases progOk
          · simpa [h1, h2] using ih
          · simp only [hpo, if_neg (by simp : ¬(false = true))] at ih
            simp [h1, h2, ih, Nat.add_comm]
  | s_stream pmRet progOk onReq s hs ih =>
    unfold ov6211_s_stream
    by_cases h1 : onReq = s.streaming
    · simpa [h1] using ih
    · cases onReq
      · have hst : s.streaming = true := by
          cases hst : s.streaming <;> simp_all
        simp only [if_neg h1, if_neg (by simp : ¬(false = true))]
        simp only [hst, if_pos rfl] at ih
        simp [ih]
      · have hst : s.streaming = false := by
          cases hst : s.streaming <;> simp_all
        by_cases h2 : pmRet < 0
        · simpa [h1, h2] using ih
        · cases progOk
          · simpa [h1, h2] using ih
          · simp only [hst, if_neg (by simp : ¬(false = true))] at ih
            simp [h1, h2, ih, Nat.add_comm]
  | set_ctrl s hs ih => exact ih

/-- C3 (counterexample): the state with `streaming = true` and
`power_on = false` is reachable — a single successful `s_stream(1)` from
the post-probe state sets `streaming` without touching the `power_on`
flag (the two flags are independent; only `s_power` writes `power_on`). -/
theorem C3_streaming_without_power_on :
    ov6211_Reachable ⟨true, false, 0, 1⟩ ∧
    (⟨true, false, 0, 1⟩ : DevState).streaming = true ∧
    (⟨true, false, 0, 1⟩ : DevState).power_on = false := by
  refine ⟨?_, rfl, rfl⟩
  have h := ov6211_Reachable.s_stream 0 true true ⟨false, false, 0, 0⟩
    ov6211_Reachable.init
  have e : (ov6211_s_stream 0 true true ⟨false, false, 0, 0⟩).1 =
      ⟨true, false, 0, 1⟩ := by decide
  exact e ▸ h

/-- C3 (amended): in every state reachable through the public operations,
if the `streaming` flag is true then a runtime-PM reference is held (the
usage count is positive) — but not necessarily the `power_on` flag, which
only tracks the `s_power` operation. -/
theorem C3_streaming_implies_pm_ref (s : DevState)
    (h : ov6211_Reachable s) (hstr : s.streaming = true) :
    0 < s.pmCount := by
  have hinv := reachable_pm_count s h
  rw [hstr] at hinv
  cases hpo : s.power_on <;> simp [hpo] at hinv <;> omega

/-- C3 (witness): the amended invariant at the concrete reachable state
reached by a successful `s_stream(1)` from the post-probe state. -/
theorem C3_streaming_implies_pm_ref_witness :
    0 < (⟨true, false, 0, 1⟩ : DevState).pmCount :=
  C3_streaming_implies_pm_ref ⟨true, false, 0, 1⟩
    (by
      have h := ov6211_Reachable.s_stream 0 true true ⟨false, false, 0, 0⟩
        ov6211_Reachable.init
      have e : (ov6211_s_stream 0 true true ⟨false, false, 0, 0⟩).1 =
          ⟨true, false, 0, 1⟩ := by decide
      exact e ▸ h)
    rfl

/-- C7: in both cited drivers, `s_stream(1)` while already streaming is a
no-op — same state, no events (no register program, no power reference),
return 0 — and `s_stream(0)` while not streaming likewise performs no
register write. -/
theorem C7_s_stream_idempotent (pmRet : Int) (progOk : Bool)
    (s : DevState) :
    (s.streaming = true →
      ov6211_s_stream pmRet progOk true s = (s, [], 0) ∧
      ox03j10_s_stream pmRet progOk true s = (s, [], 0)) ∧
    (s.streaming = false →
      ov6211_s_stream pmRet progOk false s = (s, [], 0) ∧
      ox03j10_s_stream pmRet progOk false s = (s, [], 0)) := by
  constructor <;> intro h <;>
    simp [ov6211_s_stream, ox03j10_s_stream, h]

/-- C7 (witness): the no-op behaviour at a concrete streaming state and
a concrete idle state. -/
theorem C7_s_stream_idempotent_witness :
    ov6211_s_stream 0 true true ⟨true, false, 0, 1⟩ =
      (⟨true, false, 0, 1⟩, [], 0) ∧
    ov6211_s_stream 0 true false ⟨false, false, 0, 0⟩ =
      (⟨false, false, 0, 0⟩, [], 0) :=
  ⟨((C7_s_stream_idempotent 0 true ⟨true, false, 0, 1⟩).1 rfl).1,
    ((C7_s_stream_idempotent 0 true ⟨false, false, 0, 0⟩).2 rfl).1⟩

/-- `RKMODULE_SET_QUICK_STREAM` in `ov6211_ioctl`: write the streaming
bit (nonzero argument) or the standby bit (zero) to `0x0100`; no driver
state is read or written. -/
def ov6211_quick_stream (busOk : SendOk) (s : DevState) (stream : Nat) :
    DevState × List BusEvent × Int :=
  if stream ≠ 0 then
    (s, [.send (wrBuf 0x0100 1 1)],
      if busOk (wrBuf 0x0100 1 1) then 0 else - EIO)
  else
    (s, [.send (wrBuf 0x0100 1 0)],
      if busOk (wrBuf 0x0100 1 0) then 0 else - EIO)

/-- `RKMODULE_SET_QUICK_STREAM` in `ox03c10_ioctl`: identical body. -/
def ox03c10_quick_stream (busOk : SendOk) (s : DevState) (stream : Nat) :
    DevState × List BusEvent × Int :=
  if stream ≠ 0 then
    (s, [.send (wrBuf 0x0100 1 1)],
      if busOk (wrBuf 0x0100 1 1) then 0 else - EIO)
  else
    (s, [.send (wrBuf 0x0100 1 0)],
      if busOk (wrBuf 0x0100 1 0) then 0 else - EIO)

/-- C10: the quick-stream ioctl writes the streaming-enable bit (nonzero
argument) or the software-standby bit (zero) to the mode-control register
`0x0100`, and every field of the driver state — streaming, power_on,
cur_mode, and the PM reference count — is left unchanged; in both cited
drivers. -/
theorem C10_quick_stream_frame (busOk : SendOk) (s : DevState)
    (stream : Nat) :
    (ov6211_quick_stream busOk s stream).1 = s ∧
    (ov6211_quick_stream busOk s stream).2.1 =
      [.send (wrBuf 0x0100 1 (if stream ≠ 0 then 1 else 0))] ∧
    (ox03c10_quick_stream busOk s stream).1 = s ∧
    (ox03c10_quick_stream busOk s stream).2.1 =
      [.send (wrBuf 0x0100 1 (if stream ≠ 0 then 1 else 0))] := by
  by_cases h : stream ≠ 0 <;>
    simp [ov6211_quick_stream, ox03c10_quick_stream, h]

/-- `ov6211_check_sensor_id`: 1-byte read of the chip-id register
`0x300a` into an accumulator initialised to 0 (a failed read leaves it
0, its return value is only logged); `-ENODEV` unless the value equals
`CHIP_ID = 0x67`. -/
def ov6211_check_sensor_id (bus : ReadBus) : Int :=
  let id := match ov6211_read_reg bus 0x300a 1 with
    | .ok v => v
    | .error _ => 0
  if id ≠ 0x67 then -ENODEV else 0

/-- The attach-time steps of `ov6211_probe` relevant to the identity
check: the power-onReq sequence, the id read, then either registration (no
mode program is written anywhere onReq the probe path — mode programs run
only in `__ov6211_start_stream`) or, onReq mismatch, `__ov6211_power_off`
via `err_power_off`. -/
inductive ProbeEvent where
  | power_on_seq
  | idRead
  | power_off_seq
  | registered
  | modeProgram
deriving DecidableEq

/-- `ov6211_probe` (attach path): `__ov6211_power_on` (aborting with its
return value onReq failure, oracle `powerRet`), then
`ov6211_check_sensor_id`; a mismatch jumps to `err_power_off`, powering
the device off and surfacing the error; otherwise the subdevice is
registered. -/
def ov6211_probe (powerRet : Int) (bus : ReadBus) :
    List ProbeEvent × Int :=
  if powerRet ≠ 0 then ([.power_on_seq], powerRet)
  else if ov6211_check_sensor_id bus ≠ 0 then
    ([.power_on_seq, .idRead, .power_off_seq], ov6211_check_sensor_id bus)
  else ([.power_on_seq, .idRead, .registered], 0)

/-- C8: if the chip-id read yields a value different from `0x67` (also
when the read fails and the accumulator stays 0), the identity check
returns `-ENODEV`, the attach path powers the device off, and no mode
register program is written onReq that path. -/
theorem C8_check_identity (bus : ReadBus)
    (hid : (match bus 0x300a 1 with
      | none => 0
      | some v => v % 256) ≠ 0x67) :
    ov6211_check_sensor_id bus = -ENODEV ∧
    ov6211_probe 0 bus =
      ([.power_on_seq, .idRead, .power_off_seq], -ENODEV) ∧
    ProbeEvent.modeProgram ∉ (ov6211_probe 0 bus).1 := by
  have hchk : ov6211_check_sensor_id bus = -ENODEV := by
    rcases hb : bus 0x300a 1 with _ | v
    · have hread : ov6211_read_reg bus 0x300a 1 = .error (- EIO) := by
        simp [ov6211_read_reg, hb]
      replace hid : (0 : Nat) ≠ 0x67 := by decide
      simp [ov6211_check_sensor_id, hread, hid]
    · have hread : ov6211_read_reg bus 0x300a 1 = .ok (v % 256) := by
        simp [ov6211_read_reg, hb]
      replace hid : v % 256 ≠ 0x67 := by rw [hb] at hid; simpa using hid
      simp [ov6211_check_sensor_id, hread, hid]
  have hprobe : ov6211_probe 0 bus =
      ([.power_on_seq, .idRead, .power_off_seq], -ENODEV) := by
    unfold ov6211_probe
    rw [if_neg (by simp), if_pos (by rw [hchk]; simp [ENODEV]), hchk]
  refine ⟨hchk, hprobe, ?_⟩
  rw [hprobe]
  simp

/-- C8 (witness): the identity-check failure path onReq a simulated bus that
yields id `0x42`. -/
theorem C8_check_identity_witness :
    ov6211_check_sensor_id (fun _ _ => some 0x42) = -ENODEV ∧
    ov6211_probe 0 (fun _ _ => some 0x42) =
      ([.power_on_seq, .idRead, .power_off_seq], -ENODEV) ∧
    ProbeEvent.modeProgram ∉ (ov6211_probe 0 (fun _ _ => some 0x42)).1 :=
  C8_check_identity (fun _ _ => some 0x42) (by decide)

end SensorDrivers
